import Mathlib

/-
Verification of the yt-dl job-lifecycle logic (src/app/main.py) against its
specification.  The Python handlers are shallowly embedded: the filesystem
under the download root is a list of named workspaces, the external yt-dlp
tool is an oracle from the option dictionary and url to an outcome, and each
HTTP handler becomes a pure function returning Except HTTPError.
-/

namespace YtDl

/-- The nine characters of the character class in the sanitizer call
re.sub of the class backslash / * ? : quote < > | with an underscore
(main.py line 86). -/
def badChars : List Char := ['\\', '/', '*', '?', ':', '"', '<', '>', '|']

/-- Replacement applied to a single character: a member of the class becomes
an underscore, every other character is kept. -/
def replChar (c : Char) : Char := if c ∈ badChars then '_' else c

/-- Semantics of re.sub with a single-character class: scan the text left to
right, replacing every match of the class with the replacement text. -/
def reSubChars : List Char → List Char
  | [] => []
  | c :: rest => replChar c :: reSubChars rest

/-- safe_title = re.sub of the class over the title (main.py line 86). -/
def sanitizeTitle (title : String) : String := String.mk (reSubChars title.data)

/-- final_name = safe_title + dot + codec (main.py line 87). -/
def finalName (title codec : String) : String := sanitizeTitle title ++ "." ++ codec

/-- codec = mp3 if the form field equals mp3, wav otherwise (main.py line 111). -/
def resolveCodec (fmt : String) : String := if fmt = "mp3" then "mp3" else "wav"

/-- Fallback title when the extractor metadata has none (main.py line 85). -/
def defaultTitle : String := "downloaded_audio"

/-- Path of the process-wide configured cookie file (main.py line 18). -/
def COOKIES_FILE : String := "/etc/secrets/cookies.txt"

/-- The subset of the ydl_opts dictionary relevant to the claims
(main.py lines 51 to 68). -/
structure YdlOpts where
  outtmpl : String
  noplaylist : Bool
  quiet : Bool
  preferredcodec : String
  preferredquality : String
  cookiefile : Option String
deriving DecidableEq

/-- Construction of ydl_opts: quality 192 for mp3 and 0 otherwise (line 49),
and the cookiefile entry added only when the cookie file exists and has a
positive size (main.py lines 66 to 68).  cookiePresent and cookieSize model
the two filesystem observations made on COOKIES_FILE. -/
def buildYdlOpts (jobName codec : String) (cookiePresent : Bool) (cookieSize : Nat) : YdlOpts :=
  { outtmpl := jobName ++ "/%(id)s.%(ext)s"
    noplaylist := true
    quiet := true
    preferredcodec := codec
    preferredquality := if codec = "mp3" then "192" else "0"
    cookiefile :=
      if cookiePresent = true ∧ 0 < cookieSize then some COOKIES_FILE else none }

/-- Outcome of one invocation of the external yt-dlp tool: either the call
raises an exception carrying a message, or it succeeds with optional title
metadata and the files (name and byte size) it wrote into the workspace. -/
inductive ExtractOutcome where
  | raises (msg : String)
  | succeeds (titleMeta : Option String) (files : List (String × Nat))
deriving DecidableEq

/-- The download root: a list of workspaces, each a directory name with the
files (name and byte size) it holds. -/
structure DState where
  workspaces : List (String × List (String × Nat))
deriving DecidableEq

/-- The triple returned by download_audio_with_cookies on success
(main.py line 92): final filename, workspace directory name, raw title. -/
structure Handle where
  final_name : String
  job_dir : String
  title : String
deriving DecidableEq

/-- An HTTPException: status code and detail string. -/
structure HTTPError where
  status : Nat
  detail : String
deriving DecidableEq

/-- Suffix test over the character data of two strings. -/
def strEndsWith (s suffix : String) : Bool := suffix.data.isSuffixOf s.data

/-- Prefix test over the character data of two strings, modelling the Python
str.startswith test. -/
def strStartsWith (s pre : String) : Bool := pre.data.isPrefixOf s.data

/-- next(job_dir.glob of star dot codec, None) (main.py line 80): the first
file in the workspace whose name ends in a dot and the codec.  The list
order models the filesystem enumeration order. -/
def globFirst (files : List (String × Nat)) (codec : String) : Option (String × Nat) :=
  files.find? (fun f => strEndsWith f.1 ("." ++ codec))

/-- Does a workspace of the given name exist under the download root. -/
def workspaceExists (st : DState) (name : String) : Bool :=
  st.workspaces.any (fun w => w.1 == name)

/-- download_audio_with_cookies (main.py lines 46 to 92): allocate a fresh
workspace with mkdtemp, build ydl_opts, run the extractor; an exception
becomes a 500 with a fixed detail, a missing output file a 500, and on
success the raw output is renamed to the sanitized final name and the
handle triple is returned.  No branch removes the workspace. -/
def download_audio_with_cookies (cookiePresent : Bool) (cookieSize : Nat)
    (extractor : YdlOpts → String → ExtractOutcome) (jobName url codec : String)
    (st : DState) : Except HTTPError Handle × DState :=
  let stAlloc : DState := ⟨(jobName, []) :: st.workspaces⟩
  let opts := buildYdlOpts jobName codec cookiePresent cookieSize
  match extractor opts url with
  | .raises _ =>
      (.error ⟨500, "YouTube blocked this request. Cookies may be missing or expired."⟩,
       stAlloc)
  | .succeeds titleMeta files =>
      let stFiles : DState := ⟨(jobName, files) :: st.workspaces⟩
      match globFirst files codec with
      | none => (.error ⟨500, "Audio conversion failed."⟩, stFiles)
      | some f =>
          let title := titleMeta.getD defaultTitle
          let fname := finalName title codec
          let stRenamed : DState :=
            ⟨(jobName, (fname, f.2) :: files.erase f) :: st.workspaces⟩
          (.ok ⟨fname, jobName, title⟩, stRenamed)

/-- The POST download handler download_youtube (main.py lines 103 to 128):
reject a url that starts with neither scheme with a 400 before anything is
allocated, resolve the codec, and delegate to download_audio_with_cookies. -/
def download_youtube (cookiePresent : Bool) (cookieSize : Nat)
    (extractor : YdlOpts → String → ExtractOutcome) (jobName url fmt : String)
    (st : DState) : Except HTTPError Handle × DState :=
  if strStartsWith url "http://" || strStartsWith url "https://" then
    download_audio_with_cookies cookiePresent cookieSize extractor jobName url
      (resolveCodec fmt) st
  else
    (.error ⟨400, "Invalid YouTube URL."⟩, st)

/-- A filesystem path as its list of segments below the root. -/
abbrev SegPath := List String

/-- Split a character list into the chunks between slash characters,
accumulating the current chunk in reverse. -/
def splitSegsAux : List Char → List Char → List String
  | [], cur => [String.mk cur.reverse]
  | c :: rest, cur =>
      if c = '/' then String.mk cur.reverse :: splitSegsAux rest []
      else splitSegsAux rest (c :: cur)

/-- Parse a path string into segments the way pathlib does: empty chunks
(duplicate slashes) and single-dot chunks are dropped, double-dot chunks
are kept. -/
def parseSegs (s : String) : List String :=
  (splitSegsAux s.data []).filter (fun seg => seg != "" && seg != ".")

/-- Does the path string start with a slash. -/
def isAbsolute (s : String) : Bool :=
  match s.data with
  | [] => false
  | c :: _ => c == '/'

/-- The pathlib join operator: an absolute right operand discards the base,
otherwise the parsed segments are appended to it. -/
def pathJoin (base : SegPath) (s : String) : SegPath :=
  if isAbsolute s then parseSegs s else base ++ parseSegs s

/-- One step of operating-system path resolution: a double-dot segment
removes the last resolved segment, anything else is appended. -/
def stepResolve (acc : SegPath) (seg : String) : SegPath :=
  if seg = ".." then acc.dropLast else acc ++ [seg]

/-- Operating-system resolution of a segment list from the root, as done by
the exists check and the file read. -/
def osResolve (p : SegPath) : SegPath := p.foldl stepResolve []

/-- The process-wide download root, tempdir slash yt_audio_downloads
(main.py line 24). -/
def DOWNLOAD_DIR : SegPath := ["tmp", "yt_audio_downloads"]

/-- The response of the file-serving route: resolved path of the file that
is read, suggested filename, and media type. -/
structure FileResponse where
  path : SegPath
  filename : String
  media_type : String
deriving DecidableEq

/-- serve_file (main.py lines 130 to 145): join the raw job_dir and
filename query values under the download root, 404 when the resolved path
does not exist, otherwise stream that file as audio/mpeg.  The filesystem
is the list of resolved absolute paths of the files that exist. -/
def serve_file (fs : List SegPath) (filename job_dir : String) :
    Except HTTPError FileResponse :=
  let folder := pathJoin DOWNLOAD_DIR job_dir
  let file_path := osResolve (pathJoin folder filename)
  if fs.contains file_path then
    .ok ⟨file_path, filename, "audio/mpeg"⟩
  else
    .error ⟨404, "File not found."⟩

/-- Is the second path equal to or below the first directory. -/
def isUnder (dir p : SegPath) : Bool := dir.isPrefixOf p

end YtDl

namespace YtDl

/- Theorems. -/

/-- Helper: the scanning substitution acts pointwise. -/
theorem reSubChars_eq_map (l : List Char) : reSubChars l = l.map replChar := by
  induction l with
  | nil => rfl
  | cons c rest ih => simp [reSubChars, ih]

/-- C4: sanitization maps every character of the title pointwise, turning
exactly the members of the nine-character class into an underscore and
keeping every other character; the final name appends a dot and the codec;
on the title My/Song: Live with codec mp3 the result is My_Song_ Live.mp3. -/
theorem sanitize_replaces_exactly (title codec : String) :
    (sanitizeTitle title).data
        = title.data.map (fun c => if c ∈ badChars then '_' else c)
      ∧ finalName title codec = sanitizeTitle title ++ "." ++ codec
      ∧ finalName "My/Song: Live" "mp3" = "My_Song_ Live.mp3" := by
  refine ⟨?_, rfl, by decide⟩
  show reSubChars title.data = _
  rw [reSubChars_eq_map]
  rfl

/-- C5: the codec resolves to mp3 exactly on the literal form value mp3, and
to wav on every other form value. -/
theorem resolveCodec_spec :
    resolveCodec "mp3" = "mp3" ∧ ∀ fmt : String, fmt ≠ "mp3" → resolveCodec fmt = "wav" := by
  refine ⟨rfl, ?_⟩
  intro fmt h
  simp [resolveCodec, h]

/-- Witness for C5 at the empty string, MP3 and ogg. -/
theorem resolveCodec_spec_witness :
    resolveCodec "MP3" = "wav" ∧ resolveCodec "" = "wav" ∧ resolveCodec "ogg" = "wav" :=
  ⟨resolveCodec_spec.2 "MP3" (by decide), resolveCodec_spec.2 "" (by decide),
   resolveCodec_spec.2 "ogg" (by decide)⟩

/-- Helper: the per-character replacement is idempotent, since the
underscore it writes is not itself in the replaced class. -/
theorem replChar_idem (c : Char) : replChar (replChar c) = replChar c := by
  by_cases h : c ∈ badChars <;> simp [replChar, h]

/-- Helper: the scanning substitution is idempotent on character lists. -/
theorem reSubChars_idem (l : List Char) : reSubChars (reSubChars l) = reSubChars l := by
  induction l with
  | nil => rfl
  | cons c rest ih => simp [reSubChars, ih, replChar_idem]

/-- C9: sanitizing a title twice gives the same string as sanitizing once. -/
theorem sanitizeTitle_idempotent (title : String) :
    sanitizeTitle (sanitizeTitle title) = sanitizeTitle title :=
  congrArg String.mk (reSubChars_idem title.data)

/-- C6: when the url starts with neither http scheme, the POST handler
returns the 400 Invalid YouTube URL error and the download root is exactly
the one before the call, so no workspace was allocated. -/
theorem invalid_url_no_workspace (cookiePresent : Bool) (cookieSize : Nat)
    (extractor : YdlOpts → String → ExtractOutcome) (jobName url fmt : String)
    (st : DState)
    (h1 : strStartsWith url "http://" = false)
    (h2 : strStartsWith url "https://" = false) :
    download_youtube cookiePresent cookieSize extractor jobName url fmt st
      = (.error ⟨400, "Invalid YouTube URL."⟩, st) := by
  simp [download_youtube, h1, h2]

/-- Witness for C6 on a ftp url against an empty download root. -/
theorem invalid_url_no_workspace_witness :
    download_youtube false 0 (fun _ _ => .raises "x") "yt_w0" "ftp://example.com/v" "mp3" ⟨[]⟩
      = (.error ⟨400, "Invalid YouTube URL."⟩, ⟨[]⟩) :=
  invalid_url_no_workspace false 0 (fun _ _ => .raises "x") "yt_w0" "ftp://example.com/v"
    "mp3" ⟨[]⟩ (by decide) (by decide)

/-- C7: whatever message the extraction tool raises, the surfaced error is
the fixed 500 detail about YouTube blocking the request; the detail does
not depend on the raised message and contains no path separator. -/
theorem extraction_error_is_generic (cookiePresent : Bool) (cookieSize : Nat)
    (msg jobName url codec : String) (st : DState) :
    (download_audio_with_cookies cookiePresent cookieSize (fun _ _ => .raises msg)
        jobName url codec st).1
      = .error ⟨500, "YouTube blocked this request. Cookies may be missing or expired."⟩
    ∧ '/' ∉ "YouTube blocked this request. Cookies may be missing or expired.".data :=
  ⟨rfl, by decide⟩

/-- C8: the cookiefile entry of ydl_opts is present exactly when the
configured cookie file exists and has positive size; a missing or
zero-size cookie file is silently ignored, the options are still built. -/
theorem cookiefile_iff_present_nonempty (jobName codec : String)
    (cookiePresent : Bool) (cookieSize : Nat) :
    ((buildYdlOpts jobName codec cookiePresent cookieSize).cookiefile = some COOKIES_FILE
        ↔ (cookiePresent = true ∧ 0 < cookieSize))
    ∧ ((cookiePresent = false ∨ cookieSize = 0) →
        (buildYdlOpts jobName codec cookiePresent cookieSize).cookiefile = none) := by
  constructor
  · simp only [buildYdlOpts]
    split_ifs with h
    · simpa using h
    · simp [h]
  · rintro (h | h) <;> simp [buildYdlOpts, h]

/-- Witness for C8: an existing empty cookie file and a missing one are
both ignored. -/
theorem cookiefile_iff_present_nonempty_witness :
    (buildYdlOpts "yt_w1" "mp3" true 0).cookiefile = none
    ∧ (buildYdlOpts "yt_w2" "wav" false 5).cookiefile = none :=
  ⟨(cookiefile_iff_present_nonempty "yt_w1" "mp3" true 0).2 (Or.inr rfl),
   (cookiefile_iff_present_nonempty "yt_w2" "wav" false 5).2 (Or.inl rfl)⟩

/-- C1 counterexample: on an extraction failure the handler returns its 500
error, yet the workspace allocated for the job still exists under the
download root, contradicting the claim that it is deleted. -/
theorem workspace_survives_failure_cex :
    (download_youtube false 0 (fun _ _ => .raises "HTTP Error 403") "yt_cex"
        "https://youtube.com/watch?v=abc" "mp3" ⟨[]⟩).1
      = .error ⟨500, "YouTube blocked this request. Cookies may be missing or expired."⟩
    ∧ workspaceExists (download_youtube false 0 (fun _ _ => .raises "HTTP Error 403")
        "yt_cex" "https://youtube.com/watch?v=abc" "mp3" ⟨[]⟩).2 "yt_cex" = true :=
  ⟨rfl, by decide⟩

/-- C1 amended: on every failing extraction call, whether the tool raises
or writes no file matching the codec pattern, the handler surfaces a 500
error and the workspace directory still exists after it returns; no
failure path deletes the workspace. -/
theorem workspace_survives_failure (cookiePresent : Bool) (cookieSize : Nat)
    (extractor : YdlOpts → String → ExtractOutcome) (jobName url codec : String)
    (st : DState)
    (hfail :
      (∃ msg, extractor (buildYdlOpts jobName codec cookiePresent cookieSize) url
          = .raises msg)
      ∨ (∃ titleMeta files,
          extractor (buildYdlOpts jobName codec cookiePresent cookieSize) url
            = .succeeds titleMeta files ∧ globFirst files codec = none)) :
    (∃ e, (download_audio_with_cookies cookiePresent cookieSize extractor
            jobName url codec st).1 = .error e ∧ e.status = 500)
    ∧ workspaceExists (download_audio_with_cookies cookiePresent cookieSize extractor
        jobName url codec st).2 jobName = true := by
  rcases hfail with ⟨msg, hext⟩ | ⟨titleMeta, files, hext, hglob⟩
  · refine ⟨⟨⟨500, "YouTube blocked this request. Cookies may be missing or expired."⟩,
      ?_, rfl⟩, ?_⟩ <;> simp [download_audio_with_cookies, hext, workspaceExists]
  · refine ⟨⟨⟨500, "Audio conversion failed."⟩, ?_, rfl⟩, ?_⟩ <;>
      simp [download_audio_with_cookies, hext, hglob, workspaceExists]

/-- Witness for C1 amended: a raising extractor against an empty root. -/
theorem workspace_survives_failure_witness :
    (∃ e, (download_audio_with_cookies false 0 (fun _ _ => .raises "boom")
            "yt_w3" "https://u" "mp3" ⟨[]⟩).1 = .error e ∧ e.status = 500)
    ∧ workspaceExists (download_audio_with_cookies false 0 (fun _ _ => .raises "boom")
        "yt_w3" "https://u" "mp3" ⟨[]⟩).2 "yt_w3" = true :=
  workspace_survives_failure false 0 (fun _ _ => .raises "boom") "yt_w3" "https://u"
    "mp3" ⟨[]⟩ (Or.inl ⟨"boom", rfl⟩)

/-- C3 counterexample: the extractor writes a zero-byte abc.mp3, and the
handler still returns a success handle for the empty artifact instead of
failing. -/
theorem zero_byte_accepted_cex :
    (download_audio_with_cookies false 0
        (fun _ _ => .succeeds (some "T") [("abc.mp3", 0)])
        "yt_z" "https://u" "mp3" ⟨[]⟩).1
      = .ok ⟨"T.mp3", "yt_z", "T"⟩ :=
  rfl

/-- C3 amended: the only output check is the existence of a file whose name
matches the codec glob pattern; the file size is never inspected, so a
zero-byte matching file yields a success handle, and only the absence of a
matching file yields the 500 conversion error. -/
theorem output_check_ignores_size (cookiePresent : Bool) (cookieSize : Nat)
    (titleMeta : Option String) (files : List (String × Nat))
    (jobName url codec : String) (st : DState) :
    (globFirst files codec = none →
      (download_audio_with_cookies cookiePresent cookieSize
          (fun _ _ => .succeeds titleMeta files) jobName url codec st).1
        = .error ⟨500, "Audio conversion failed."⟩)
    ∧ (∀ f, globFirst files codec = some f →
      (download_audio_with_cookies cookiePresent cookieSize
          (fun _ _ => .succeeds titleMeta files) jobName url codec st).1
        = .ok ⟨finalName (titleMeta.getD defaultTitle) codec, jobName,
               titleMeta.getD defaultTitle⟩) := by
  constructor
  · intro h
    simp [download_audio_with_cookies, h]
  · intro f h
    simp [download_audio_with_cookies, h]

/-- Witness for C3 amended: a zero-byte id1.mp3 is returned as a success. -/
theorem output_check_ignores_size_witness :
    (download_audio_with_cookies false 0
        (fun _ _ => .succeeds (some "Song") [("id1.mp3", 0)])
        "yt_z2" "https://u" "mp3" ⟨[]⟩).1
      = .ok ⟨finalName "Song" "mp3", "yt_z2", "Song"⟩
    ∧ finalName "Song" "mp3" = "Song.mp3" :=
  ⟨(output_check_ignores_size false 0 (some "Song") [("id1.mp3", 0)]
      "yt_z2" "https://u" "mp3" ⟨[]⟩).2 ("id1.mp3", 0) (by decide),
   by decide⟩

/-- C2 counterexample: with a file etc/passwd outside the download root, a
filename made of parent-reference segments is served successfully, reading
a path that is neither under the workspace nor under the download root,
contradicting the claim that the components are validated. -/
theorem serve_file_traversal_cex :
    serve_file [["etc", "passwd"]] "../../../etc/passwd" "yt_v"
      = .ok ⟨["etc", "passwd"], "../../../etc/passwd", "audio/mpeg"⟩
    ∧ isUnder (pathJoin DOWNLOAD_DIR "yt_v") ["etc", "passwd"] = false
    ∧ isUnder DOWNLOAD_DIR ["etc", "passwd"] = false :=
  ⟨rfl, by decide, by decide⟩

/-- C2 amended: retrieve returns the 404 Not found error whenever the path
obtained by joining the raw handle components under the download root
resolves to a file that does not exist, but the components are not
validated as single path segments: a filename holding parent-reference
segments can resolve to, and serve, an existing file outside the
workspace and outside the download root. -/
theorem serve_file_spec (fs : List SegPath) (filename job_dir : String) :
    (fs.contains (osResolve (pathJoin (pathJoin DOWNLOAD_DIR job_dir) filename)) = false →
      serve_file fs filename job_dir = .error ⟨404, "File not found."⟩)
    ∧ ∃ fs2 fn jd r, serve_file fs2 fn jd = .ok r
        ∧ isUnder (pathJoin DOWNLOAD_DIR jd) r.path = false
        ∧ isUnder DOWNLOAD_DIR r.path = false := by
  constructor
  · intro h
    simp [serve_file, h]
    simpa using h
  · exact ⟨[["secret", "key.pem"]], "../../../secret/key.pem", "ws",
      ⟨["secret", "key.pem"], "../../../secret/key.pem", "audio/mpeg"⟩,
      rfl, by decide, by decide⟩

/-- Witness for C2 amended: a missing file under a fresh workspace gives
the 404 error. -/
theorem serve_file_spec_witness :
    serve_file [] "missing.mp3" "yt_v2" = .error ⟨404, "File not found."⟩ :=
  (serve_file_spec [] "missing.mp3" "yt_v2").1 (by decide)

/-- Helper: appending strings appends their character data. -/
theorem strData_append (a b : String) : (a ++ b).data = a.data ++ b.data := by
  cases a
  cases b
  rfl

/-- Helper: the character data of the final name is the sanitized title
followed by a dot and the codec. -/
theorem finalName_data (title codec : String) :
    (finalName title codec).data = (sanitizeTitle title).data ++ ('.' :: codec.data) := by
  show ((sanitizeTitle title ++ ".") ++ codec).data = _
  rw [strData_append, strData_append]
  simp

/-- Helper: the per-character replacement never yields a slash. -/
theorem replChar_ne_slash (c : Char) : replChar c ≠ '/' := by
  by_cases h : c ∈ badChars
  · simp [replChar, h]
  · simp only [replChar, if_neg h]
    intro hq
    exact h (by rw [hq]; decide)

/-- Helper: when the codec holds no slash, the final name holds no slash. -/
theorem finalName_no_slash (title codec : String) (hc : '/' ∉ codec.data) :
    '/' ∉ (finalName title codec).data := by
  rw [finalName_data]
  intro hmem
  rcases List.mem_append.1 hmem with h1 | h2
  · have hmap : (sanitizeTitle title).data = title.data.map replChar := by
      show reSubChars title.data = _
      rw [reSubChars_eq_map]
    rw [hmap] at h1
    rcases List.mem_map.1 h1 with ⟨c, _, hc2⟩
    exact replChar_ne_slash c hc2
  · rcases List.mem_cons.1 h2 with h3 | h3
    · exact absurd h3 (by decide)
    · exact hc h3

/-- Helper: for a three-character codec the final name is distinct from the
empty, single-dot and double-dot segments. -/
theorem finalName_ne (title codec : String) (hlen : codec.data.length = 3) :
    finalName title codec ≠ "" ∧ finalName title codec ≠ "."
      ∧ finalName title codec ≠ ".." := by
  have hd := finalName_data title codec
  refine ⟨?_, ?_, ?_⟩ <;> intro hq <;> rw [hq] at hd <;>
    have hlq := congrArg List.length hd <;> simp [hlen] at hlq

/-- Helper: splitting a slash-free character list yields the single chunk of
the pending characters followed by the whole list. -/
theorem splitSegsAux_no_slash (l cur : List Char) (h : '/' ∉ l) :
    splitSegsAux l cur = [String.mk (cur.reverse ++ l)] := by
  induction l generalizing cur with
  | nil => simp [splitSegsAux]
  | cons c rest ih =>
      have hc : ¬ c = '/' := fun hq => h (hq ▸ List.mem_cons_self c rest)
      have hr : '/' ∉ rest := fun hm => h (List.mem_cons_of_mem c hm)
      simp only [splitSegsAux, if_neg hc, ih (c :: cur) hr, List.reverse_cons,
        List.append_assoc, List.singleton_append]

/-- Helper: a slash-free string distinct from the empty string and the
single dot parses as the one segment it is. -/
theorem parseSegs_single (s : String) (hs : '/' ∉ s.data) (h1 : s ≠ "") (h2 : s ≠ ".") :
    parseSegs s = [s] := by
  have hsplit := splitSegsAux_no_slash s.data [] hs
  simp only [List.reverse_nil, List.nil_append] at hsplit
  have hmk : String.mk s.data = s := rfl
  rw [hmk] at hsplit
  unfold parseSegs
  rw [hsplit]
  simp [List.filter_cons, h1, h2]

/-- Helper: a string with no slash in its data does not start with one. -/
theorem isAbsolute_eq_false_of_no_slash (s : String) (h : '/' ∉ s.data) :
    isAbsolute s = false := by
  unfold isAbsolute
  cases hs : s.data with
  | nil => rfl
  | cons c rest =>
      have hc : c ≠ '/' := fun hq => h (by rw [hs, hq]; exact List.mem_cons_self _ _)
      simp [hc]

/-- C10: for the codecs the handler can resolve, the sanitized final name
contains no slash, parses as a single path segment, joins under the
workspace directory as a direct child, and survives resolution as that
child, so the renamed artifact always lies directly inside the job's own
workspace. -/
theorem finalName_single_segment (title codec : String) (base : SegPath)
    (hcodec : codec = "mp3" ∨ codec = "wav") :
    '/' ∉ (finalName title codec).data
    ∧ parseSegs (finalName title codec) = [finalName title codec]
    ∧ pathJoin base (finalName title codec) = base ++ [finalName title codec]
    ∧ (∀ acc : SegPath,
        stepResolve acc (finalName title codec) = acc ++ [finalName title codec]) := by
  have hc : '/' ∉ codec.data := by rcases hcodec with h | h <;> subst h <;> decide
  have hlen : codec.data.length = 3 := by rcases hcodec with h | h <;> subst h <;> rfl
  have hns := finalName_no_slash title codec hc
  obtain ⟨h1, h2, h3⟩ := finalName_ne title codec hlen
  have hseg := parseSegs_single _ hns h1 h2
  refine ⟨hns, hseg, ?_, ?_⟩
  · simp [pathJoin, isAbsolute_eq_false_of_no_slash _ hns, hseg]
  · intro acc
    unfold stepResolve
    rw [if_neg h3]

/-- Witness for C10 on an adversarial slash-bearing title. -/
theorem finalName_single_segment_witness :
    '/' ∉ (finalName "a/b" "mp3").data
    ∧ pathJoin ["tmp", "yt_audio_downloads", "yt_j"] (finalName "a/b" "mp3")
        = ["tmp", "yt_audio_downloads", "yt_j"] ++ [finalName "a/b" "mp3"] :=
  ⟨(finalName_single_segment "a/b" "mp3" ["tmp", "yt_audio_downloads", "yt_j"]
      (Or.inl rfl)).1,
   (finalName_single_segment "a/b" "mp3" ["tmp", "yt_audio_downloads", "yt_j"]
      (Or.inl rfl)).2.2.1⟩

end YtDl
